import Mathlib

/-!
# Verification of the vManage device-template reconciliation module

Shallow embedding of `vmanage/api/device_templates.py`.  Pure data reshaping
is translated to Lean functions; HTTP calls are abstracted as parameters that
describe the remote catalog snapshot (the module itself is stateless: every
public operation re-fetches the catalog at its start).  Fallible code
(Python `raise`, `KeyError`, the Ansible-style `fail_json` calls) is modelled
with `Except` / an error option.
-/

set_option autoImplicit false

/-! ## Python-style JSON values and `dictdiffer.diff`

`import_device_template_list` compares payloads with `dictdiffer.diff`.
We embed the relevant fragment of `dictdiffer` (version used by the repo):
values are strings, lists, or string-keyed dicts; `diff` recurses through
dict-key intersections and positional list pairs, emits one `add` / one
`remove` entry for key or length differences, and a `change` entry for
unequal scalars or values of different types.  Paths are kept as key lists
(the Python library would dot-join all-string paths; the claims never
inspect that formatting). -/

inductive PyVal where
  | str (s : String)
  | list (xs : List PyVal)
  | dict (kvs : List (String × PyVal))

inductive PathKey where
  | s (key : String)
  | i (idx : Nat)
deriving DecidableEq

inductive DiffOp where
  | add (path : List PathKey) (items : List (PathKey × PyVal))
  | remove (path : List PathKey) (items : List (PathKey × PyVal))
  | change (path : List PathKey) (oldVal newVal : PyVal)

/-- First value stored under a key in an association list (Python dict lookup;
vManage keys are unique, so first-match agrees with the Python dict). -/
def lookupKv {α : Type} (l : List (String × α)) (k : String) : Option α :=
  (l.find? (fun kv => kv.1 == k)).map (fun kv => kv.2)

mutual

/-- `dictdiffer.diff(first, second)` with default options, specialised to
string/list/dict values.  Mirrors the library: dict/dict recurses on the key
intersection (in `first`'s order) then yields one `add` entry (keys only in
`second`, in `second`'s order) and one `remove` entry (keys only in `first`);
list/list recurses positionally on the common prefix then yields `add` for
extra elements of `second` and `remove` (in reversed index order) for extra
elements of `first`; anything else yields a single `change` when unequal
(values of different shapes are never equal in Python). -/
def ddiff (first second : PyVal) (node : List PathKey) : List DiffOp :=
  match first, second with
  | .dict f, .dict s =>
      let inter := ddiffDictInter f s node
      let adds := (s.filter (fun kv => (lookupKv f kv.1).isNone)).map
        (fun kv => (PathKey.s kv.1, kv.2))
      let dels := (f.filter (fun kv => (lookupKv s kv.1).isNone)).map
        (fun kv => (PathKey.s kv.1, kv.2))
      inter ++ (if adds.isEmpty then [] else [.add node adds])
            ++ (if dels.isEmpty then [] else [.remove node dels])
  | .list f, .list s =>
      let m := min f.length s.length
      let inter := ddiffListInter f s node 0
      let adds := ((s.drop m).enum).map (fun p => (PathKey.i (m + p.1), p.2))
      let dels := (((f.drop m).enum).map (fun p => (PathKey.i (m + p.1), p.2))).reverse
      inter ++ (if adds.isEmpty then [] else [.add node adds])
            ++ (if dels.isEmpty then [] else [.remove node dels])
  | .str a, .str b =>
      if a = b then [] else [.change node (.str a) (.str b)]
  | f, s => [.change node f s]
termination_by sizeOf first

/-- Recursion over the keys of `first` that also occur in `second`
(`for key in intersection: diff(first[key], second[key], node + [key])`). -/
def ddiffDictInter (f s : List (String × PyVal)) (node : List PathKey) : List DiffOp :=
  match f with
  | [] => []
  | (k, v) :: rest =>
      (match lookupKv s k with
       | some w => ddiff v w (node ++ [PathKey.s k])
       | none => []) ++ ddiffDictInter rest s node
termination_by sizeOf f

/-- Positional recursion over the common prefix of two lists
(`for i in intersection: diff(first[i], second[i], node + [i])`). -/
def ddiffListInter (f s : List PyVal) (node : List PathKey) (i : Nat) : List DiffOp :=
  match f, s with
  | a :: as, b :: bs => ddiff a b (node ++ [PathKey.i i]) ++ ddiffListInter as bs node (i + 1)
  | _, _ => []
termination_by sizeOf f

end

/-! ## Feature-template catalog, name resolver, listing-side name conversion

`GTLeaf`/`GTNode` are the name-addressed `generalTemplates` entries of a
desired feature-based device template (`templateName`, `templateType`,
optional one-level `subTemplates`); `GTLeafId`/`GTNodeId` are the id-addressed
server-side shape.  The feature-template catalog is the list fetched by
`FeatureTemplates.get_feature_template_dict`; `generalTemplates_to_id` views
it keyed by `templateName` (fetched with `factory_default=True`), the listing
code of `get_device_template_list` views it keyed by `templateId` (also with
`factory_default=True`).  Lookups are first-match; vManage names/ids are
unique so this agrees with the Python dicts. -/

structure GTLeaf where
  templateName : String
  templateType : String
deriving DecidableEq

structure GTNode where
  templateName : String
  templateType : String
  subTemplates : Option (List GTLeaf)
deriving DecidableEq

structure GTLeafId where
  templateId : String
  templateType : String
deriving DecidableEq

structure GTNodeId where
  templateId : String
  templateType : String
  subTemplates : Option (List GTLeafId)
deriving DecidableEq

structure FeatureTemplate where
  templateName : String
  templateId : String
deriving DecidableEq

/-- Failure modes of the module.  `unknownTemplate` stands for the
`fail_json("There is no existing feature template named ...")` calls in
`generalTemplates_to_id` (on the `DeviceTemplates` class these raise, since
`fail_json` is not defined there; either way the operation aborts);
`unknownTemplateId` for the `KeyError` a missing id raises in the listing
conversion; `unknownType` for `Exception("Template ... is of unknown type")`;
`noGeneralTemplates` for `Exception("No generalTemplates found ...")` in
`add_device_template`; `keyError` for any other missing-key access. -/
inductive Err where
  | unknownTemplate (name : String)
  | unknownTemplateId (id : String)
  | unknownType (name : String)
  | noGeneralTemplates
  | keyError (key : String)
deriving DecidableEq

/-- `feature_templates[name]` (dict keyed by `templateName`). -/
def lookupFT (fcat : List FeatureTemplate) (n : String) : Option FeatureTemplate :=
  fcat.find? (fun ft => ft.templateName == n)

/-- `feature_template_dict[id]` (dict keyed by `templateId`). -/
def lookupFTById (fcat : List FeatureTemplate) (i : String) : Option FeatureTemplate :=
  fcat.find? (fun ft => ft.templateId == i)

/-- Left-to-right effectful map over `Except`: the Python `for` loops that
build a converted list and abort on the first raise. -/
def mapExcept {α β : Type} (f : α → Except Err β) : List α → Except Err (List β)
  | [] => .ok []
  | a :: as =>
    match f a with
    | .error e => .error e
    | .ok b =>
      match mapExcept f as with
      | .error e => .error e
      | .ok bs => .ok (b :: bs)

/-- Body of the `for sub_template in template['subTemplates']` loop of
`generalTemplates_to_id` (lines 324-334): resolve one sub-template name to
its id, aborting when the name is absent from the catalog. -/
def resolveLeaf (fcat : List FeatureTemplate) (l : GTLeaf) : Except Err GTLeafId :=
  match lookupFT fcat l.templateName with
  | some ft => .ok ⟨ft.templateId, l.templateType⟩
  | none => .error (.unknownTemplate l.templateName)

/-- Body of the outer loop of `generalTemplates_to_id` (lines 313-339):
resolve one `generalTemplates` entry.  (The `'templateName' not in template`
guard of line 314 is unrepresentable here: the node type always carries a
name.) -/
def resolveNode (fcat : List FeatureTemplate) (t : GTNode) : Except Err GTNodeId :=
  match lookupFT fcat t.templateName with
  | some ft =>
    match t.subTemplates with
    | none => .ok ⟨ft.templateId, t.templateType, none⟩
    | some subs =>
      match mapExcept (resolveLeaf fcat) subs with
      | .ok rs => .ok ⟨ft.templateId, t.templateType, some rs⟩
      | .error e => .error e
  | none => .error (.unknownTemplate t.templateName)

/-- `DeviceTemplates.generalTemplates_to_id` (lines 310-341): convert a
name-addressed `generalTemplates` sequence to the id-addressed shape,
aborting on the first unresolvable name. -/
def generalTemplatesToId (fcat : List FeatureTemplate) (gs : List GTNode) :
    Except Err (List GTNodeId) :=
  mapExcept (resolveNode fcat) gs

/-- Inverse direction used by `get_device_template_list` (lines 124-130):
`feature_template_dict[sub_template['templateId']]['templateName']`, a
`KeyError` when the id is absent. -/
def leafToName (fcat : List FeatureTemplate) (l : GTLeafId) : Except Err GTLeaf :=
  match lookupFTById fcat l.templateId with
  | some ft => .ok ⟨ft.templateName, l.templateType⟩
  | none => .error (.unknownTemplateId l.templateId)

/-- One entry of the id-to-name conversion inlined in
`get_device_template_list` (lines 117-132): keep `templateType`, replace the
id by the catalog name, recurse one level into `subTemplates`. -/
def nodeToName (fcat : List FeatureTemplate) (t : GTNodeId) : Except Err GTNode :=
  match lookupFTById fcat t.templateId with
  | some ft =>
    match t.subTemplates with
    | none => .ok ⟨ft.templateName, t.templateType, none⟩
    | some subs =>
      match mapExcept (leafToName fcat) subs with
      | .ok rs => .ok ⟨ft.templateName, t.templateType, some rs⟩
      | .error e => .error e
  | none => .error (.unknownTemplateId t.templateId)

/-- The whole `for old_template in obj.pop('generalTemplates')` conversion of
`get_device_template_list` (lines 115-133). -/
def generalTemplatesToName (fcat : List FeatureTemplate) (gs : List GTNodeId) :
    Except Err (List GTNode) :=
  mapExcept (nodeToName fcat) gs

/-- All feature-template names referenced by one `generalTemplates` entry:
its own plus its sub-templates'. -/
def nodeNames (t : GTNode) : List String :=
  t.templateName ::
    (match t.subTemplates with
     | some s => s.map (fun l => l.templateName)
     | none => [])

/-- All feature-template names referenced by a `generalTemplates` sequence. -/
def referencedNames : List GTNode → List String
  | [] => []
  | t :: ts => nodeNames t ++ referencedNames ts

/-! ## Input schema extraction (`get_template_input`, lines 185-222)

The POST body and transport are external; the function of interest maps the
response's json body to the returned `{"columns": [...]}` dict.  A column is
kept exactly when its `editable` flag is true; the `variable` of a kept
column is the group captured by the first (leftmost) match of the pattern
`\((?P<variable>[^(]+)\)` in the column title, `none` when the pattern does
not match.  (`match.groups('variable')[0]` in the source is group 1 with a
default for non-participating groups; the group always participates, so it
is simply the captured text.) -/

structure InputColumn where
  title : String
  property : String
  editable : Bool
deriving DecidableEq

structure InputEntry where
  title : String
  property : String
  «variable» : Option String
deriving DecidableEq

structure InputSchema where
  columns : List InputEntry
deriving DecidableEq

structure InputHeader where
  columns : Option (List InputColumn)

structure InputBody where
  header : Option InputHeader

/-- Attempt of the pattern `\(([^(]+)\)` at one position: succeeds when the
position holds `'('` and, among the following run of non-`'('` characters,
some `')'` occurs after at least one group character; the greedy `[^(]+`
with backtracking captures everything up to the last such `')'`. -/
def matchParenAt : List Char → Option String
  | '(' :: rest =>
    let run := rest.takeWhile (fun c => c ≠ '(')
    let closers := (List.range run.length).filter
      (fun j => decide (1 ≤ j) && (run.get? j == some ')'))
    match closers.getLast? with
    | some j => some (String.mk (run.take j))
    | none => none
  | _ => none

/-- `re.search`: try the pattern at each position, leftmost match wins. -/
def searchVar : List Char → Option String
  | [] => none
  | c :: rest =>
    match matchParenAt (c :: rest) with
    | some s => some s
    | none => searchVar rest

/-- `regex.search(column['title'])` followed by the group extraction of
lines 213-217. -/
def extractVariable (title : String) : Option String :=
  searchVar title.data

/-- `get_template_input` (lines 196-222) as a function of the response's
json body.  `none` for `respJson` stands for a falsy body (Python `None`,
`{}`, ...); a missing `header` or `columns` key is `none` in the nested
options.  In all those cases the prepared default `{"columns": []}` is
returned unchanged. -/
def getTemplateInput (respJson : Option InputBody) : InputSchema :=
  match respJson with
  | none => ⟨[]⟩
  | some body =>
    match body.header with
    | none => ⟨[]⟩
    | some h =>
      match h.columns with
      | none => ⟨[]⟩
      | some cols =>
        ⟨(cols.filter (fun c => c.editable)).map
          (fun c => ⟨c.title, c.property, extractVariable c.title⟩)⟩

/-! ## Device templates, `add_device_template` (lines 224-264)

A desired device template as read by the module: `templateName`,
`templateDescription`, `deviceType`, `factoryDefault` and `configType` are
accessed unconditionally when building the create payload; the presence of
`generalTemplates` / `templateConfiguration` is tested with `in`, so those
two are optional fields. -/

structure DeviceTemplate where
  templateName : String
  templateDescription : String
  deviceType : String
  factoryDefault : Bool
  configType : String
  generalTemplates : Option (List GTNode)
  templateConfiguration : Option String
deriving DecidableEq

/-- The JSON payload `add_device_template` POSTs (lines 235-263):
base fields plus `policyId = ''` and `featureTemplateUidRange = []`, then
either the raw `templateConfiguration` (configType `file`, endpoint
`template/device/cli`) or the id-resolved `generalTemplates` (endpoint
`template/device/feature`). -/
structure AddPayload where
  templateName : String
  templateDescription : String
  deviceType : String
  factoryDefault : Bool
  configType : String
  policyId : String
  featureTemplateUidRange : List String
  templateConfiguration : Option String
  generalTemplates : Option (List GTNodeId)
deriving DecidableEq

/-- `add_device_template` (lines 224-264), returning the payload it would
POST.  A `file` template missing `templateConfiguration` hits the
`device_template['templateConfiguration']` access and raises `KeyError`;
a non-`file` template without `generalTemplates` raises (line 260); a
non-`file` template resolves names to ids first and aborts on an
unresolvable name. -/
def addDeviceTemplate (fcat : List FeatureTemplate) (t : DeviceTemplate) :
    Except Err AddPayload :=
  let base : AddPayload :=
    ⟨t.templateName, t.templateDescription, t.deviceType, t.factoryDefault,
     t.configType, "", [], none, none⟩
  if t.configType = "file" then
    match t.templateConfiguration with
    | some c => .ok { base with templateConfiguration := some c }
    | none => .error (.keyError "templateConfiguration")
  else
    match t.generalTemplates with
    | some g =>
      match generalTemplatesToId fcat g with
      | .ok ids => .ok { base with generalTemplates := some ids }
      | .error e => .error e
    | none => .error .noGeneralTemplates

/-! ## The reconciler (`import_device_template_list`, lines 266-308) -/

/-- One entry of the reconciler's diff list:
`{'name': ..., 'diff': ...}` (lines 293, 304). -/
structure ChangeRecord where
  name : String
  diff : List DiffOp

/-- A catalog value of `device_template_dict` (the listing result keyed by
`templateName`, key removed). -/
structure CatalogEntry where
  factoryDefault : Bool
  generalTemplates : Option (List GTNode)
  templateConfiguration : Option String
  attachedDevices : List String
  input : InputSchema

/-- PyVal encoding of one sub-template dict built by the listing
(lines 125-130) or supplied in a desired template. -/
def gtLeafVal (l : GTLeaf) : PyVal :=
  .dict [("templateName", .str l.templateName), ("templateType", .str l.templateType)]

/-- PyVal encoding of one `generalTemplates` entry dict (lines 118-131). -/
def gtNodeVal (t : GTNode) : PyVal :=
  .dict ([("templateName", .str t.templateName), ("templateType", .str t.templateType)] ++
    (match t.subTemplates with
     | some s => [("subTemplates", .list (s.map gtLeafVal))]
     | none => []))

/-- PyVal encoding of a whole `generalTemplates` list, as handed to
`dictdiffer.diff`. -/
def gtListVal (gs : List GTNode) : PyVal :=
  .list (gs.map gtNodeVal)

/-- Lines 283-291: the diff computed in the name-exists branch.  The branch
is chosen by the *desired* template's fields (`'generalTemplates' in
device_template`, `elif 'templateConfiguration' in device_template`); the
matching field of the existing template is then accessed directly, a
`KeyError` when absent; a desired template with neither field raises
`Exception("Template ... is of unknown type")`. -/
def existsDiff (ex : CatalogEntry) (t : DeviceTemplate) : Except Err (List DiffOp) :=
  match t.generalTemplates with
  | some dg =>
    match ex.generalTemplates with
    | some eg => .ok (ddiff (gtListVal eg) (gtListVal dg) [])
    | none => .error (.keyError "generalTemplates")
  | none =>
    match t.templateConfiguration with
    | some dc =>
      match ex.templateConfiguration with
      | some ec => .ok (ddiff (.str ec) (.str dc) [])
      | none => .error (.keyError "templateConfiguration")
    | none => .error (.unknownType t.templateName)

/-- Lines 298-303: the comparable payload of a desired template in the
name-absent branch (`generalTemplates` first, else `templateConfiguration`);
`none` when the template carries neither field, in which case line 303
raises. -/
def payloadOf (t : DeviceTemplate) : Option PyVal :=
  match t.generalTemplates with
  | some g => some (gtListVal g)
  | none =>
    match t.templateConfiguration with
    | some c => some (.str c)
    | none => none

/-- Observable outcome of processing one desired template: the change
records appended to `device_template_updates`, the `add_device_template`
invocations issued (each element is the template passed to a call), and the
exception, if one was raised. -/
structure StepOut where
  recs : List ChangeRecord
  invs : List DeviceTemplate
  err : Option Err

/-- The body of the `for device_template in device_template_list` loop
(lines 280-306).  Name exists (lines 281-296): compute `existsDiff`; when it
is non-empty append the record and, when `not check_mode and update`, invoke
`add_device_template`.  Name absent (lines 297-306): diff against `{}`,
always append the record and, when `not check_mode`, invoke
`add_device_template` (independently of `update`).  An invocation is logged
even when `add_device_template` itself raises: the call was issued. -/
def processTemplate (dtDict : List (String × CatalogEntry)) (fcat : List FeatureTemplate)
    (check update : Bool) (t : DeviceTemplate) : StepOut :=
  match lookupKv dtDict t.templateName with
  | some ex =>
    match existsDiff ex t with
    | .error e => ⟨[], [], some e⟩
    | .ok d =>
      if d.isEmpty then ⟨[], [], none⟩
      else
        if check = false ∧ update = true then
          match addDeviceTemplate fcat t with
          | .ok _ => ⟨[⟨t.templateName, d⟩], [t], none⟩
          | .error e => ⟨[⟨t.templateName, d⟩], [t], some e⟩
        else ⟨[⟨t.templateName, d⟩], [], none⟩
  | none =>
    match payloadOf t with
    | none => ⟨[], [], some (.unknownType t.templateName)⟩
    | some p =>
      let d := ddiff (.dict []) p []
      if check = false then
        match addDeviceTemplate fcat t with
        | .ok _ => ⟨[⟨t.templateName, d⟩], [t], none⟩
        | .error e => ⟨[⟨t.templateName, d⟩], [t], some e⟩
      else ⟨[⟨t.templateName, d⟩], [], none⟩

/-- Outcome of a whole `import_device_template_list` run: `records` is the
final value of the local `device_template_updates` accumulator, `invs` the
`add_device_template` invocations in order, `err` the exception that escaped
the loop, if any.  The list Python actually hands back to the caller is
`returned` below: on an exception the function raises and returns nothing. -/
structure ImportResult where
  records : List ChangeRecord
  invs : List DeviceTemplate
  err : Option Err

/-- The `for` loop of `import_device_template_list` over a fetched catalog
dict: process templates left to right, stop at the first exception. -/
def importFromCatalog (dtDict : List (String × CatalogEntry))
    (fcat : List FeatureTemplate) (check update : Bool) :
    List DeviceTemplate → ImportResult
  | [] => ⟨[], [], none⟩
  | t :: rest =>
    let s := processTemplate dtDict fcat check update t
    match s.err with
    | some e => ⟨s.recs, s.invs, some e⟩
    | none =>
      let r := importFromCatalog dtDict fcat check update rest
      ⟨s.recs ++ r.records, s.invs ++ r.invs, r.err⟩

/-- What the caller receives: the accumulated records when the loop
finished, nothing when an exception propagated (the local list is
discarded by the raise). -/
def ImportResult.returned (r : ImportResult) : Option (List ChangeRecord) :=
  match r.err with
  | none => some r.records
  | some _ => none

/-! ## Catalog listing (`get_device_template_list`, lines 87-141) and the
full `import_device_template_list` including its catalog fetch

The remote snapshot the listing reads: the summary list returned by
`get_device_templates`, the per-id objects of `get_device_template_object`
(`none` stands for the falsy `{}` of a response without json), the full
feature-template catalog (fetched with `factory_default=True`), and the
per-id results of the two enrichment calls. -/

structure DeviceListEntry where
  templateName : String
  templateId : String
deriving DecidableEq

/-- A device-template object as returned by
`get_device_template_object(template_id)`. -/
structure ServerObj where
  templateName : String
  factoryDefault : Bool
  generalTemplates : Option (List GTNodeId)
  templateConfiguration : Option String

structure RemoteState where
  deviceTemplates : List DeviceListEntry
  objects : String → Option ServerObj
  featureTemplates : List FeatureTemplate
  attachments : String → List String
  inputs : String → InputSchema

/-- One element of the list `get_device_template_list` returns. -/
structure ListedTemplate where
  templateName : String
  factoryDefault : Bool
  generalTemplates : Option (List GTNode)
  templateConfiguration : Option String
  attachedDevices : List String
  input : InputSchema

/-- The `for device in device_templates` loop of `get_device_template_list`
(lines 106-139), faithful to the source's block structure: a device is
skipped when filtered out by `name_list`, when its object is falsy, or when
it is a factory default not asked for; the id-to-name conversion, the
enrichment and `return_list.append(obj)` (lines 115-139) are all inside
`if 'generalTemplates' in obj:`, so an object without `generalTemplates`
(a CLI/file template) is never appended. -/
def getDeviceTemplateListLoop (st : RemoteState) (factoryDefault : Bool)
    (nameList : List String) : List DeviceListEntry → Except Err (List ListedTemplate)
  | [] => .ok []
  | d :: rest =>
    if !nameList.isEmpty && !(nameList.contains d.templateName) then
      getDeviceTemplateListLoop st factoryDefault nameList rest
    else
      match st.objects d.templateId with
      | none => getDeviceTemplateListLoop st factoryDefault nameList rest
      | some obj =>
        if factoryDefault = false ∧ obj.factoryDefault = true then
          getDeviceTemplateListLoop st factoryDefault nameList rest
        else
          match obj.generalTemplates with
          | none => getDeviceTemplateListLoop st factoryDefault nameList rest
          | some gts =>
            match generalTemplatesToName st.featureTemplates gts with
            | .error e => .error e
            | .ok named =>
              match getDeviceTemplateListLoop st factoryDefault nameList rest with
              | .error e => .error e
              | .ok tail =>
                .ok (⟨obj.templateName, obj.factoryDefault, some named,
                      obj.templateConfiguration,
                      st.attachments d.templateId, st.inputs d.templateId⟩ :: tail)

/-- `get_device_template_list` (lines 87-141). -/
def getDeviceTemplateList (st : RemoteState) (factoryDefault : Bool)
    (nameList : List String) : Except Err (List ListedTemplate) :=
  getDeviceTemplateListLoop st factoryDefault nameList st.deviceTemplates

/-- `list_to_dict(device_template_list, 'templateName', remove_key=True)`
(line 160): key each element by its `templateName`, dropping the key from
the value. -/
def listToDict (l : List ListedTemplate) : List (String × CatalogEntry) :=
  l.map (fun x => (x.templateName,
    ⟨x.factoryDefault, x.generalTemplates, x.templateConfiguration,
     x.attachedDevices, x.input⟩))

/-- `get_device_template_dict()` with default arguments (lines 143-160), as
called at line 279: `factory_default=False`, no name filter. -/
def getDeviceTemplateDict (st : RemoteState) : Except Err (List (String × CatalogEntry)) :=
  match getDeviceTemplateList st false [] with
  | .ok l => .ok (listToDict l)
  | .error e => .error e

/-- `import_device_template_list(device_template_list, check_mode, update)`
(lines 266-308): fetch the current catalog dict, then run the
reconciliation loop over it. -/
def importDeviceTemplateList (st : RemoteState) (deviceTemplateList : List DeviceTemplate)
    (check update : Bool) : ImportResult :=
  match getDeviceTemplateDict st with
  | .error e => ⟨[], [], some e⟩
  | .ok dtDict => importFromCatalog dtDict st.featureTemplates check update deviceTemplateList

/-! ## Concrete sample inputs used by witnesses and counterexamples -/

/-- A desired template with neither `generalTemplates` nor
`templateConfiguration` (configType notwithstanding). -/
def c5T : DeviceTemplate :=
  { templateName := "T5", templateDescription := "d", deviceType := "vedge",
    factoryDefault := false, configType := "feature",
    generalTemplates := none, templateConfiguration := none }

/-- A well-formed file template, used as the "later template" after the
aborting one. -/
def c5Other : DeviceTemplate :=
  { templateName := "other", templateDescription := "d", deviceType := "vedge",
    factoryDefault := false, configType := "file",
    generalTemplates := none, templateConfiguration := some "x" }

/-- A desired file template not present in the (empty) catalog. -/
def c2T : DeviceTemplate :=
  { templateName := "T2", templateDescription := "d", deviceType := "vedge",
    factoryDefault := false, configType := "file",
    generalTemplates := none, templateConfiguration := some "cfg" }

/-! ## Claim theorems -/

/-- Claim C9: `get_template_input` keeps exactly the editable columns, each
mapped to `{title, property, variable}` with `variable` the first
parenthesized token of the title; the title `"Hostname (hostname)"`
yields the variable `"hostname"`, and a title with no parenthesized token
(such as `"Description"`) yields a null variable.  Non-editable columns
produce no entry. -/
theorem c9_variable_extraction :
    (∀ cols : List InputColumn,
      getTemplateInput (some ⟨some ⟨some cols⟩⟩) =
        ⟨(cols.filter (fun c => c.editable)).map
          (fun c => ⟨c.title, c.property, extractVariable c.title⟩)⟩) ∧
    extractVariable "Hostname (hostname)" = some "hostname" ∧
    extractVariable "Description" = none := by
  refine ⟨fun cols => rfl, by decide, by decide⟩

/-- Claim C10: a falsy json body, a body without a `header` key, or a header
without a `columns` key all make `get_template_input` return the prepared
default `{"columns": []}` unchanged, without raising. -/
theorem c10_input_defaults :
    getTemplateInput none = ⟨[]⟩ ∧
    getTemplateInput (some ⟨none⟩) = ⟨[]⟩ ∧
    getTemplateInput (some ⟨some ⟨none⟩⟩) = ⟨[]⟩ :=
  ⟨rfl, rfl, rfl⟩

/-- Claim C5: a desired template carrying neither `generalTemplates` nor
`templateConfiguration` raises the unknown-type error and aborts the whole
plan: whatever the catalog, the mode flags and the remaining input, the run
stops with that error, no record is kept, no submission is made for the
offending template, and no later template is processed — in the name-exists
branch and in the name-absent branch alike. -/
theorem c5_unknown_type_aborts (dtDict : List (String × CatalogEntry))
    (fcat : List FeatureTemplate) (check update : Bool) (t : DeviceTemplate)
    (rest : List DeviceTemplate)
    (hg : t.generalTemplates = none) (hc : t.templateConfiguration = none) :
    importFromCatalog dtDict fcat check update (t :: rest) =
      ⟨[], [], some (.unknownType t.templateName)⟩ := by
  rcases h : lookupKv dtDict t.templateName with _ | ex <;>
    simp [importFromCatalog, processTemplate, existsDiff, payloadOf, hg, hc, h]

/-- Witness for C5 at a concrete input. -/
theorem c5_unknown_type_aborts_witness :
    c5T.generalTemplates = none ∧ c5T.templateConfiguration = none ∧
    importFromCatalog [] [] false true [c5T, c5Other] =
      ⟨[], [], some (.unknownType "T5")⟩ :=
  ⟨rfl, rfl, c5_unknown_type_aborts [] [] false true c5T [c5Other] rfl rfl⟩

/-- Claim C2: a desired template whose name is absent from the catalog dict
is always recorded and always submitted when `check_mode` is false,
independently of `update`: the head of the accumulated record list is
`{name, diff}` with the diff computed by `dictdiffer.diff({}, payload)`
(empty baseline), and the head of the `add_device_template` invocation list
is the template itself. -/
theorem c2_creation_independence (dtDict : List (String × CatalogEntry))
    (fcat : List FeatureTemplate) (update : Bool) (t : DeviceTemplate)
    (p : PyVal) (rest : List DeviceTemplate)
    (hname : lookupKv dtDict t.templateName = none)
    (hp : payloadOf t = some p) :
    (importFromCatalog dtDict fcat false update (t :: rest)).records.head? =
      some ⟨t.templateName, ddiff (.dict []) p []⟩ ∧
    (importFromCatalog dtDict fcat false update (t :: rest)).invs.head? = some t := by
  rcases ha : addDeviceTemplate fcat t with e | pl <;>
    simp [importFromCatalog, processTemplate, hname, hp, ha]

/-- Witness for C2 at a concrete input (a file template, `update = false`). -/
theorem c2_creation_independence_witness :
    lookupKv ([] : List (String × CatalogEntry)) c2T.templateName = none ∧
    payloadOf c2T = some (.str "cfg") ∧
    ((importFromCatalog [] [] false false [c2T]).records.head? =
      some ⟨c2T.templateName, ddiff (.dict []) (.str "cfg") []⟩ ∧
     (importFromCatalog [] [] false false [c2T]).invs.head? = some c2T) :=
  ⟨rfl, rfl, c2_creation_independence [] [] false c2T (.str "cfg") [] rfl rfl⟩

/-! ### Check-mode purity (C1) -/

/-- With `check_mode=True` both `add_device_template` call sites are guarded
by `if not check_mode`, so a step never issues an invocation. -/
theorem processTemplate_check_true_invs (dtDict : List (String × CatalogEntry))
    (fcat : List FeatureTemplate) (u : Bool) (t : DeviceTemplate) :
    (processTemplate dtDict fcat true u t).invs = [] := by
  rcases h : lookupKv dtDict t.templateName with _ | ex
  · rcases hp : payloadOf t with _ | p <;> simp [processTemplate, h, hp]
  · rcases hd : existsDiff ex t with e | d
    · simp [processTemplate, h, hd]
    · by_cases hde : d.isEmpty <;> simp [processTemplate, h, hd, hde]

/-- The records a step appends and the raised exception are computed before
and independently of the `add_device_template` call: when the
`check_mode=False` step does not raise, the `check_mode=True` step appends
the same records and does not raise either. -/
theorem processTemplate_false_ok (dtDict : List (String × CatalogEntry))
    (fcat : List FeatureTemplate) (u : Bool) (t : DeviceTemplate)
    (h : (processTemplate dtDict fcat false u t).err = none) :
    (processTemplate dtDict fcat true u t).recs =
      (processTemplate dtDict fcat false u t).recs ∧
    (processTemplate dtDict fcat true u t).err = none := by
  rcases h1 : lookupKv dtDict t.templateName with _ | ex
  · rcases hp : payloadOf t with _ | p
    · simp [processTemplate, h1, hp] at h
    · rcases ha : addDeviceTemplate fcat t with e | pl
      · simp [processTemplate, h1, hp, ha] at h
      · simp [processTemplate, h1, hp, ha]
  · rcases hd : existsDiff ex t with e | d
    · simp [processTemplate, h1, hd] at h
    · by_cases hde : d.isEmpty
      · simp [processTemplate, h1, hd, hde]
      · by_cases hu : u = true
        · rcases ha : addDeviceTemplate fcat t with e | pl
          · simp [processTemplate, h1, hd, hde, hu, ha] at h
          · simp [processTemplate, h1, hd, hde, hu, ha]
        · simp [processTemplate, h1, hd, hde, hu]

/-- A whole `check_mode=True` run issues no invocation. -/
theorem importFromCatalog_check_true_invs (dtDict : List (String × CatalogEntry))
    (fcat : List FeatureTemplate) (u : Bool) (l : List DeviceTemplate) :
    (importFromCatalog dtDict fcat true u l).invs = [] := by
  induction l with
  | nil => rfl
  | cons t rest ih =>
    rcases he : (processTemplate dtDict fcat true u t).err with _ | e <;>
      simp [importFromCatalog, he, ih, processTemplate_check_true_invs]

/-- When the `check_mode=False` run finishes without raising, the
`check_mode=True` run finishes too and accumulates the same records. -/
theorem importFromCatalog_false_ok (dtDict : List (String × CatalogEntry))
    (fcat : List FeatureTemplate) (u : Bool) (l : List DeviceTemplate)
    (h : (importFromCatalog dtDict fcat false u l).err = none) :
    (importFromCatalog dtDict fcat true u l).err = none ∧
    (importFromCatalog dtDict fcat true u l).records =
      (importFromCatalog dtDict fcat false u l).records := by
  induction l with
  | nil => exact ⟨rfl, rfl⟩
  | cons t rest ih =>
    rcases he : (processTemplate dtDict fcat false u t).err with _ | e
    · have hrest : (importFromCatalog dtDict fcat false u rest).err = none := by
        simp [importFromCatalog, he] at h; exact h
      obtain ⟨hr1, hr2⟩ := ih hrest
      obtain ⟨hs1, hs2⟩ := processTemplate_false_ok dtDict fcat u t he
      simp [importFromCatalog, he, hs1, hs2, hr1, hr2]
    · simp [importFromCatalog, he] at h

/-- A desired feature template whose `generalTemplates` references a feature
template name ("X") absent from the feature-template catalog. -/
def c1T : DeviceTemplate :=
  { templateName := "T1", templateDescription := "d", deviceType := "vedge",
    factoryDefault := false, configType := "feature",
    generalTemplates := some [⟨"X", "vpn", none⟩], templateConfiguration := none }

/-- Counterexample to claim C1 as stated.  With an empty device-template
catalog and an empty feature-template catalog, importing `[c1T]` with
`check_mode=True` issues no submission and returns a one-record list, but
the very same call with `check_mode=False` invokes `add_device_template`,
which aborts inside `generalTemplates_to_id` on the unresolvable name "X"
(the `fail_json` call, an `AttributeError` at runtime on this class), so the
`check_mode=False` run raises and computes no list at all: the two calls do
not return identical `ChangeRecord` lists. -/
theorem c1_counterexample :
    (importFromCatalog [] [] true false [c1T]).invs = [] ∧
    (importFromCatalog [] [] true false [c1T]).returned.isSome = true ∧
    (importFromCatalog [] [] false false [c1T]).err =
      some (.unknownTemplate "X") ∧
    (importFromCatalog [] [] false false [c1T]).returned = none :=
  ⟨rfl, rfl, rfl, rfl⟩

/-- Claim C1, amended: `check_mode=True` never invokes
`add_device_template`, whatever `update` is; and whenever the same call with
`check_mode=False` completes without raising, both calls return identical
`ChangeRecord` lists.  (The amendment conditions the list identity on the
`check_mode=False` run not raising: a submission failure aborts that run
before it can return its list, as `c1_counterexample` shows.) -/
theorem c1_check_mode_purity (dtDict : List (String × CatalogEntry))
    (fcat : List FeatureTemplate) (u : Bool) (l : List DeviceTemplate) :
    (importFromCatalog dtDict fcat true u l).invs = [] ∧
    ((importFromCatalog dtDict fcat false u l).err = none →
      (importFromCatalog dtDict fcat true u l).returned =
        (importFromCatalog dtDict fcat false u l).returned) := by
  refine ⟨importFromCatalog_check_true_invs dtDict fcat u l, fun h => ?_⟩
  obtain ⟨h1, h2⟩ := importFromCatalog_false_ok dtDict fcat u l h
  simp [ImportResult.returned, h, h1, h2]

/-- Witness for C1 (amended) at a concrete input on which the
`check_mode=False` run succeeds. -/
theorem c1_check_mode_purity_witness :
    (importFromCatalog [] [] false true [c2T]).err = none ∧
    (importFromCatalog [] [] true true [c2T]).invs = [] ∧
    (importFromCatalog [] [] true true [c2T]).returned =
      (importFromCatalog [] [] false true [c2T]).returned :=
  ⟨rfl, (c1_check_mode_purity [] [] true [c2T]).1,
    (c1_check_mode_purity [] [] true [c2T]).2 rfl⟩

/-! ### The name-exists branch (C3) -/

/-- Claim C3: for a desired template whose name is in the catalog dict, with
`d` the structural diff of lines 283-289 (existing vs desired
`generalTemplates`, or existing vs desired `templateConfiguration`, the
branch chosen by the desired template's fields): a `ChangeRecord` is
appended exactly when `d` is non-empty (head of the accumulated records),
and `add_device_template` is invoked exactly when `d` is non-empty,
`check_mode` is false and `update` is true; otherwise the run continues on
the remaining templates untouched. -/
theorem c3_update_branch (dtDict : List (String × CatalogEntry))
    (fcat : List FeatureTemplate) (check update : Bool) (t : DeviceTemplate)
    (ex : CatalogEntry) (rest : List DeviceTemplate) (d : List DiffOp)
    (hex : lookupKv dtDict t.templateName = some ex)
    (hd : existsDiff ex t = .ok d) :
    (d = [] → importFromCatalog dtDict fcat check update (t :: rest) =
      importFromCatalog dtDict fcat check update rest) ∧
    (d ≠ [] → (importFromCatalog dtDict fcat check update (t :: rest)).records.head? =
      some ⟨t.templateName, d⟩) ∧
    (d ≠ [] → check = false → update = true →
      (importFromCatalog dtDict fcat check update (t :: rest)).invs.head? = some t) ∧
    (¬(check = false ∧ update = true) →
      (importFromCatalog dtDict fcat check update (t :: rest)).invs =
        (importFromCatalog dtDict fcat check update rest).invs) := by
  by_cases hde : d = []
  · subst hde
    have hstep : processTemplate dtDict fcat check update t = ⟨[], [], none⟩ := by
      simp [processTemplate, hex, hd]
    refine ⟨fun _ => ?_, fun hne => absurd rfl hne, fun hne => absurd rfl hne,
      fun _ => ?_⟩ <;> simp [importFromCatalog, hstep]
  · have hne' : d.isEmpty = false := by
      cases d with
      | nil => exact absurd rfl hde
      | cons a as => rfl
    constructor
    · exact fun h => absurd h hde
    · by_cases hg : check = false ∧ update = true
      · rcases ha : addDeviceTemplate fcat t with e | pl <;>
          refine ⟨fun _ => ?_, fun _ h1 h2 => ?_, fun hng => absurd hg hng⟩ <;>
          simp [importFromCatalog, processTemplate, hex, hd, hne', hg, ha]
      · have hstep : processTemplate dtDict fcat check update t =
            ⟨[⟨t.templateName, d⟩], [], none⟩ := by
          simp [processTemplate, hex, hd, hne', hg]
        refine ⟨fun _ => ?_, fun _ h1 h2 => absurd ⟨h1, h2⟩ hg, fun _ => ?_⟩ <;>
          simp [importFromCatalog, hstep]

/-- Existing catalog entry holding the configuration "a". -/
def c3Ex : CatalogEntry := ⟨false, none, some "a", [], ⟨[]⟩⟩

/-- Desired file template named "T3" with configuration "b". -/
def c3T : DeviceTemplate :=
  { templateName := "T3", templateDescription := "d", deviceType := "vedge",
    factoryDefault := false, configType := "file",
    generalTemplates := none, templateConfiguration := some "b" }

/-- Witness for C3 at a concrete input: existing configuration "a", desired
configuration "b", `check_mode=False`, `update=True`; the diff is one
`change` entry, the record is appended and the template submitted. -/
theorem c3_update_branch_witness :
    lookupKv [("T3", c3Ex)] c3T.templateName = some c3Ex ∧
    existsDiff c3Ex c3T = .ok [.change [] (.str "a") (.str "b")] ∧
    (([DiffOp.change [] (.str "a") (.str "b")] = ([] : List DiffOp) →
        importFromCatalog [("T3", c3Ex)] [] false true [c3T] =
          importFromCatalog [("T3", c3Ex)] [] false true []) ∧
      ([DiffOp.change [] (.str "a") (.str "b")] ≠ ([] : List DiffOp) →
        (importFromCatalog [("T3", c3Ex)] [] false true [c3T]).records.head? =
          some ⟨c3T.templateName, [.change [] (.str "a") (.str "b")]⟩) ∧
      ([DiffOp.change [] (.str "a") (.str "b")] ≠ ([] : List DiffOp) →
        false = false → true = true →
        (importFromCatalog [("T3", c3Ex)] [] false true [c3T]).invs.head? = some c3T) ∧
      (¬(false = false ∧ true = true) →
        (importFromCatalog [("T3", c3Ex)] [] false true [c3T]).invs =
          (importFromCatalog [("T3", c3Ex)] [] false true []).invs)) :=
  ⟨rfl, by simp [existsDiff, c3Ex, c3T, ddiff],
    c3_update_branch [("T3", c3Ex)] [] false true c3T c3Ex [] _ rfl
      (by simp [existsDiff, c3Ex, c3T, ddiff])⟩

/-! ### Error propagation and partial application (C6) -/

/-- Well-formed file template processed successfully before the failure. -/
def c6Good : DeviceTemplate :=
  { templateName := "good", templateDescription := "d", deviceType := "vedge",
    factoryDefault := false, configType := "file",
    generalTemplates := none, templateConfiguration := some "c" }

/-- Later template of unknown type, which makes the run raise. -/
def c6Bad : DeviceTemplate :=
  { templateName := "bad", templateDescription := "d", deviceType := "vedge",
    factoryDefault := false, configType := "feature",
    generalTemplates := none, templateConfiguration := none }

/-- Counterexample to claim C6 as stated.  With an empty catalog, importing
`[c6Good, c6Bad]` with `check_mode=False` processes `c6Good` successfully
(its record is accumulated and its submission issued), then raises on
`c6Bad`; the raise discards the local `device_template_updates` list, so
there is no returned list for the earlier record to be present in — the
caller gets only the exception.  (The earlier submission itself does
persist; nothing is rolled back.) -/
theorem c6_counterexample :
    (importFromCatalog [] [] false false [c6Good, c6Bad]).records =
      [⟨"good", ddiff (.dict []) (.str "c") []⟩] ∧
    (importFromCatalog [] [] false false [c6Good, c6Bad]).invs = [c6Good] ∧
    (importFromCatalog [] [] false false [c6Good, c6Bad]).err =
      some (.unknownType "bad") ∧
    (importFromCatalog [] [] false false [c6Good, c6Bad]).returned = none :=
  ⟨rfl, rfl, rfl, rfl⟩

/-- Claim C6, amended: when a later template makes the run fail, the error
propagates unchanged to the immediate caller, and the submissions already
issued for earlier, successfully processed templates persist (partial
application is visible on the remote system and in the invocation log, not
rolled back) — but the `ChangeRecord`s accumulated for those earlier
templates are not returned: the raise discards the list, so the caller
receives nothing.  (The amendment replaces "still present in the returned
list" by "discarded, while submissions persist", which is what the raise
forces, as `c6_counterexample` shows.) -/
theorem c6_error_propagation (dtDict : List (String × CatalogEntry))
    (fcat : List FeatureTemplate) (check update : Bool) (t : DeviceTemplate)
    (rest : List DeviceTemplate)
    (hok : (processTemplate dtDict fcat check update t).err = none) :
    (importFromCatalog dtDict fcat check update (t :: rest)).err =
      (importFromCatalog dtDict fcat check update rest).err ∧
    (importFromCatalog dtDict fcat check update (t :: rest)).invs =
      (processTemplate dtDict fcat check update t).invs ++
        (importFromCatalog dtDict fcat check update rest).invs ∧
    ((importFromCatalog dtDict fcat check update rest).err.isSome = true →
      (importFromCatalog dtDict fcat check update (t :: rest)).returned = none) := by
  refine ⟨by simp [importFromCatalog, hok], by simp [importFromCatalog, hok], fun h => ?_⟩
  rcases he : (importFromCatalog dtDict fcat check update rest).err with _ | e
  · rw [he] at h; cases h
  · simp [importFromCatalog, ImportResult.returned, hok, he]

/-- Witness for C6 (amended) at the counterexample's input: the first step
succeeds, the rest of the run fails, the error propagates, the invocation
issued for the first template persists, and nothing is returned. -/
theorem c6_error_propagation_witness :
    (processTemplate [] [] false false c6Good).err = none ∧
    (importFromCatalog [] [] false false [c6Good, c6Bad]).err =
      (importFromCatalog [] [] false false [c6Bad]).err ∧
    (importFromCatalog [] [] false false [c6Good, c6Bad]).invs =
      (processTemplate [] [] false false c6Good).invs ++
        (importFromCatalog [] [] false false [c6Bad]).invs ∧
    ((importFromCatalog [] [] false false [c6Bad]).err.isSome = true →
      (importFromCatalog [] [] false false [c6Good, c6Bad]).returned = none) :=
  ⟨rfl, c6_error_propagation [] [] false false c6Good [c6Bad] rfl⟩

/-! ### Unknown-name failure in the resolver (C4) -/

/-- An unresolvable name among a sub-template list makes the whole
sub-template loop abort with the unknown-template failure. -/
theorem mapExcept_resolveLeaf_unres (fcat : List FeatureTemplate) :
    ∀ subs : List GTLeaf, (∃ l ∈ subs, lookupFT fcat l.templateName = none) →
      ∃ m, lookupFT fcat m = none ∧
        mapExcept (resolveLeaf fcat) subs = .error (.unknownTemplate m) := by
  intro subs
  induction subs with
  | nil => rintro ⟨l, hl, _⟩; cases hl
  | cons a as ih =>
    rintro ⟨l, hl, hn⟩
    rcases ha : lookupFT fcat a.templateName with _ | ft
    · exact ⟨a.templateName, ha, by simp [mapExcept, resolveLeaf, ha]⟩
    · rcases List.mem_cons.1 hl with rfl | hmem
      · rw [hn] at ha; cases ha
      · obtain ⟨m, hm, hmap⟩ := ih ⟨l, hmem, hn⟩
        exact ⟨m, hm, by simp [mapExcept, resolveLeaf, ha, hmap]⟩

/-- A sub-template list whose names all resolve is converted successfully. -/
theorem mapExcept_resolveLeaf_ok (fcat : List FeatureTemplate) :
    ∀ subs : List GTLeaf, (∀ l ∈ subs, (lookupFT fcat l.templateName).isSome) →
      ∃ rs, mapExcept (resolveLeaf fcat) subs = .ok rs := by
  intro subs
  induction subs with
  | nil => exact fun _ => ⟨[], rfl⟩
  | cons a as ih =>
    intro h
    rcases ha : lookupFT fcat a.templateName with _ | ft
    · have := h a (List.mem_cons_self a as); rw [ha] at this; cases this
    · obtain ⟨rs, hrs⟩ := ih (fun l hl => h l (List.mem_cons_of_mem a hl))
      exact ⟨⟨ft.templateId, a.templateType⟩ :: rs,
        by simp [mapExcept, resolveLeaf, ha, hrs]⟩

/-- A `generalTemplates` entry referencing any unresolvable name (its own or
a sub-template's) fails with the unknown-template failure. -/
theorem resolveNode_unres (fcat : List FeatureTemplate) (t : GTNode)
    (h : ∃ n ∈ nodeNames t, lookupFT fcat n = none) :
    ∃ m, lookupFT fcat m = none ∧
      resolveNode fcat t = .error (.unknownTemplate m) := by
  rcases ha : lookupFT fcat t.templateName with _ | ft
  · exact ⟨t.templateName, ha, by simp [resolveNode, ha]⟩
  · obtain ⟨n, hn, hnone⟩ := h
    rcases List.mem_cons.1 hn with rfl | hsub
    · rw [hnone] at ha; cases ha
    · rcases hs : t.subTemplates with _ | subs
      · rw [hs] at hsub; cases hsub
      · rw [hs] at hsub
        obtain ⟨l, hl, hleq⟩ := List.mem_map.1 hsub
        obtain ⟨m, hm, hmap⟩ :=
          mapExcept_resolveLeaf_unres fcat subs ⟨l, hl, hleq ▸ hnone⟩
        exact ⟨m, hm, by simp [resolveNode, ha, hs, hmap]⟩

/-- A `generalTemplates` entry whose names all resolve is converted
successfully. -/
theorem resolveNode_ok (fcat : List FeatureTemplate) (t : GTNode)
    (h : ∀ n ∈ nodeNames t, (lookupFT fcat n).isSome) :
    ∃ r, resolveNode fcat t = .ok r := by
  rcases ha : lookupFT fcat t.templateName with _ | ft
  · have := h t.templateName (by simp [nodeNames]); rw [ha] at this; cases this
  · rcases hs : t.subTemplates with _ | subs
    · exact ⟨⟨ft.templateId, t.templateType, none⟩, by simp [resolveNode, ha, hs]⟩
    · obtain ⟨rs, hrs⟩ := mapExcept_resolveLeaf_ok fcat subs (by
        intro l hl
        exact h l.templateName (by simp [nodeNames, hs, List.mem_map]; exact Or.inr ⟨l, hl, rfl⟩))
      exact ⟨⟨ft.templateId, t.templateType, some rs⟩,
        by simp [resolveNode, ha, hs, hrs]⟩

/-- Claim C4: whenever any node or sub-template node of a
`generalTemplates` sequence references a name absent from the
feature-template catalog (the catalog `generalTemplates_to_id` fetches with
factory defaults included), the whole resolution fails with the
unknown-template failure for some unresolvable name — even if every other
node resolves — and no (partially resolved) sequence is returned. -/
theorem c4_unknown_name_fails (fcat : List FeatureTemplate) (gs : List GTNode)
    (h : ∃ n ∈ referencedNames gs, lookupFT fcat n = none) :
    ∃ m, lookupFT fcat m = none ∧
      generalTemplatesToId fcat gs = .error (.unknownTemplate m) := by
  induction gs with
  | nil => obtain ⟨n, hn, _⟩ := h; cases hn
  | cons t ts ih =>
    by_cases ht : ∃ n ∈ nodeNames t, lookupFT fcat n = none
    · obtain ⟨m, hm, hr⟩ := resolveNode_unres fcat t ht
      exact ⟨m, hm, by simp [generalTemplatesToId, mapExcept, hr]⟩
    · push_neg at ht
      obtain ⟨r, hr⟩ := resolveNode_ok fcat t (by
        intro n hn
        rcases hx : lookupFT fcat n with _ | ft
        · exact absurd hx (ht n hn)
        · rfl)
      obtain ⟨n, hn, hnone⟩ := h
      have hn' : n ∈ referencedNames ts := by
        rcases List.mem_append.1 (by simpa [referencedNames] using hn) with h1 | h2
        · exact absurd hnone (ht n h1)
        · exact h2
      obtain ⟨m, hm, hmap⟩ := ih ⟨n, hn', hnone⟩
      refine ⟨m, hm, ?_⟩
      simp only [generalTemplatesToId] at hmap ⊢
      simp [mapExcept, hr, hmap]

/-- Catalog knowing only the feature template "A". -/
def c4Fcat : List FeatureTemplate := [⟨"A", "id-a"⟩]

/-- Sequence whose first node resolves but whose second node's sub-template
references the unknown name "B". -/
def c4Gs : List GTNode := [⟨"A", "t1", none⟩, ⟨"A", "t2", some [⟨"B", "tb"⟩]⟩]

/-- Witness for C4 at a concrete input: the sibling node (and the failing
node's own name) resolve, the lone unknown sub-template name "B" still
fails the whole resolution. -/
theorem c4_unknown_name_fails_witness :
    (∃ n ∈ referencedNames c4Gs, lookupFT c4Fcat n = none) ∧
    (∃ m, lookupFT c4Fcat m = none ∧
      generalTemplatesToId c4Fcat c4Gs = .error (.unknownTemplate m)) :=
  ⟨⟨"B", by decide, rfl⟩, c4_unknown_name_fails c4Fcat c4Gs ⟨"B", by decide, rfl⟩⟩

/-! ### Round-trip of name resolution and listing conversion (C7) -/

/-- In a catalog with pairwise-distinct `templateId`s, looking an element's
id back up returns that element. -/
theorem lookupFTById_of_mem (fcat : List FeatureTemplate) (ft : FeatureTemplate)
    (hI : (fcat.map (fun x => x.templateId)).Nodup) (hm : ft ∈ fcat) :
    lookupFTById fcat ft.templateId = some ft := by
  induction fcat with
  | nil => cases hm
  | cons x rest ih =>
    rw [List.map_cons, List.nodup_cons] at hI
    by_cases hx : x.templateId = ft.templateId
    · have hxft : x = ft := by
        rcases List.mem_cons.1 hm with rfl | hmr
        · rfl
        · exact absurd (hx ▸ List.mem_map_of_mem (fun y => y.templateId) hmr) hI.1
      subst hxft
      simp [lookupFTById, List.find?]
    · have hmr : ft ∈ rest := by
        rcases List.mem_cons.1 hm with rfl | hmr
        · exact absurd rfl hx
        · exact hmr
      have hbeq : (x.templateId == ft.templateId) = false := by
        simp [hx]
      simp only [lookupFTById, List.find?, hbeq]
      exact ih hI.2 hmr

/-- A successful name lookup returns a catalog member carrying that name. -/
theorem lookupFT_spec (fcat : List FeatureTemplate) (n : String)
    (ft : FeatureTemplate) (h : lookupFT fcat n = some ft) :
    ft ∈ fcat ∧ ft.templateName = n := by
  refine ⟨List.mem_of_find?_eq_some h, ?_⟩
  have := List.find?_some h
  simpa [beq_iff_eq] using this

/-- One resolved sub-template converts back to its original
name-and-type pair. -/
theorem resolveLeaf_roundtrip (fcat : List FeatureTemplate)
    (hI : (fcat.map (fun x => x.templateId)).Nodup)
    (l : GTLeaf) (r : GTLeafId) (h : resolveLeaf fcat l = .ok r) :
    leafToName fcat r = .ok l := by
  rcases hf : lookupFT fcat l.templateName with _ | ft
  · simp [resolveLeaf, hf] at h
  · simp only [resolveLeaf, hf] at h
    obtain ⟨hmem, hname⟩ := lookupFT_spec fcat _ ft hf
    cases h
    simp [leafToName, lookupFTById_of_mem fcat ft hI hmem, hname]

/-- Inverses lift pointwise through the abort-on-first-error loops. -/
theorem mapExcept_roundtrip {α β : Type} (f : α → Except Err β)
    (g : β → Except Err α) (hfg : ∀ a b, f a = .ok b → g b = .ok a) :
    ∀ (as : List α) (bs : List β), mapExcept f as = .ok bs →
      mapExcept g bs = .ok as := by
  intro as
  induction as with
  | nil =>
    intro bs h
    simp only [mapExcept] at h
    cases h
    rfl
  | cons a as ih =>
    intro bs h
    simp only [mapExcept] at h
    rcases hfa : f a with e | b <;> rw [hfa] at h
    · cases h
    · rcases hmr : mapExcept f as with e | bs' <;> rw [hmr] at h
      · cases h
      · cases h
        simp [mapExcept, hfg a b hfa, ih bs' hmr]

/-- One resolved `generalTemplates` entry converts back to the original
node: name and type preserved, sub-template order preserved. -/
theorem resolveNode_roundtrip (fcat : List FeatureTemplate)
    (hI : (fcat.map (fun x => x.templateId)).Nodup)
    (t : GTNode) (r : GTNodeId) (h : resolveNode fcat t = .ok r) :
    nodeToName fcat r = .ok t := by
  rcases hf : lookupFT fcat t.templateName with _ | ft
  · simp [resolveNode, hf] at h
  · obtain ⟨hmem, hname⟩ := lookupFT_spec fcat _ ft hf
    rcases hs : t.subTemplates with _ | subs
    · simp only [resolveNode, hf, hs] at h
      cases h
      obtain ⟨tn, tt, ts⟩ := t
      simp only at hname hs
      simp [nodeToName, lookupFTById_of_mem fcat ft hI hmem, hname, hs]
    · simp only [resolveNode, hf, hs] at h
      rcases hmr : mapExcept (resolveLeaf fcat) subs with e | rs <;> rw [hmr] at h
      · cases h
      · cases h
        have hback : mapExcept (leafToName fcat) rs = .ok subs :=
          mapExcept_roundtrip _ _
            (fun a b hab => resolveLeaf_roundtrip fcat hI a b hab) subs rs hmr
        obtain ⟨tn, tt, ts⟩ := t
        simp only at hname hs
        simp [nodeToName, lookupFTById_of_mem fcat ft hI hmem, hname, hs, hback]

/-- Claim C7: in a feature-template catalog with pairwise-distinct ids, a
`generalTemplates` sequence whose names all resolve (witnessed by a
successful `generalTemplates_to_id` run) converts back, through the
id-to-name conversion inlined in `get_device_template_list`, to a sequence
structurally equal to the original: every `templateName` and `templateType`
is preserved and the order of the sequence and of every `subTemplates`
sequence is unchanged. -/
theorem c7_roundtrip (fcat : List FeatureTemplate) (gs : List GTNode)
    (ids : List GTNodeId)
    (hI : (fcat.map (fun x => x.templateId)).Nodup)
    (h : generalTemplatesToId fcat gs = .ok ids) :
    generalTemplatesToName fcat ids = .ok gs :=
  mapExcept_roundtrip _ _
    (fun t r htr => resolveNode_roundtrip fcat hI t r htr) gs ids h

/-- Catalog with two feature templates, distinct names and ids. -/
def c7Fcat : List FeatureTemplate := [⟨"A", "id-a"⟩, ⟨"B", "id-b"⟩]

/-- A resolvable sequence with a sub-template and a plain node. -/
def c7Gs : List GTNode := [⟨"A", "ta", some [⟨"B", "tb"⟩]⟩, ⟨"B", "tb2", none⟩]

/-- Its id-resolved image. -/
def c7Ids : List GTNodeId := [⟨"id-a", "ta", some [⟨"id-b", "tb"⟩]⟩, ⟨"id-b", "tb2", none⟩]

/-- Witness for C7 at a concrete input. -/
theorem c7_roundtrip_witness :
    (c7Fcat.map (fun x => x.templateId)).Nodup ∧
    generalTemplatesToId c7Fcat c7Gs = .ok c7Ids ∧
    generalTemplatesToName c7Fcat c7Ids = .ok c7Gs :=
  ⟨by decide, rfl, c7_roundtrip c7Fcat c7Gs c7Ids (by decide) rfl⟩

/-! ### File templates and the catalog fetch (C8) -/

/-- A configured, non-factory-default CLI/file device template on the
remote system: its object carries `templateConfiguration` and no
`generalTemplates`. -/
def c8Obj : ServerObj :=
  { templateName := "CLI-T", factoryDefault := false,
    generalTemplates := none, templateConfiguration := some "cfg" }

/-- Remote snapshot holding exactly that one device template. -/
def c8State : RemoteState :=
  { deviceTemplates := [⟨"CLI-T", "id1"⟩],
    objects := fun i => if i = "id1" then some c8Obj else none,
    featureTemplates := [], attachments := fun _ => [],
    inputs := fun _ => ⟨[]⟩ }

/-- Desired file template with the same name and the very same
configuration text as the existing one. -/
def c8Desired : DeviceTemplate :=
  { templateName := "CLI-T", templateDescription := "d", deviceType := "vedge",
    factoryDefault := false, configType := "file",
    generalTemplates := none, templateConfiguration := some "cfg" }

/-- Claim C8 names a code bug.  In `get_device_template_list` the
id-to-name conversion, the enrichment, and `return_list.append(obj)`
(lines 115-139) are all nested inside `if 'generalTemplates' in obj:`, so a
configured non-factory file-type device template is silently dropped from
the listing — against the function's own docstring ("Obtain a list of all
configured device templates") and against the `templateConfiguration`
comparison arm of `import_device_template_list` (lines 286-289), which can
only ever see catalog entries produced by this listing.  Evaluated at the
failing input: the catalog comes back empty, so importing a desired file
template with the same name and identical configuration takes the
name-absent branch and re-creates it (one `add_device_template` invocation
and a fresh-creation record) instead of diffing it against the existing
`templateConfiguration` and doing nothing. -/
theorem c8_file_template_dropped_from_catalog :
    getDeviceTemplateList c8State false [] = .ok [] ∧
    getDeviceTemplateDict c8State = .ok [] ∧
    (importDeviceTemplateList c8State [c8Desired] false false).invs = [c8Desired] ∧
    (importDeviceTemplateList c8State [c8Desired] false false).records =
      [⟨"CLI-T", ddiff (.dict []) (.str "cfg") []⟩] :=
  ⟨rfl, rfl, rfl, rfl⟩
